import Mathlib

/-!
Shallow embedding of `neuroimaging/data_io/formats/nifti1.py` (NIFTI-1
header codec, geometry resolver and rescale engine) and proofs of the
specified properties.

Floating-point sample and header values are modelled as rationals; the
claims under study concern control flow, precedence and exact sentinel
comparisons, not rounding.
-/

namespace Nifti1

/-! ## Element-type code table (`datatype2sctype` / `sctype2datatype`) -/

-- datatype codes, from the module-level constants
def UBYTE : Nat := 2
def SHORT : Nat := 4
def INTEGER : Nat := 8
def FLOAT : Nat := 16
def COMPLEX : Nat := 32
def DOUBLE : Nat := 64
def RGB : Nat := 128 -- has no translation!
def INT8 : Nat := 256
def UINT16 : Nat := 512
def UINT32 : Nat := 768
def INT64 : Nat := 1024
def UINT64 : Nat := 1280
def FLOAT128 : Nat := 1536 -- has no translation!
def COMPLEX128 : Nat := 1792
def COMPLEX256 : Nat := 2048 -- has no translation!

/-- The in-memory numpy scalar types that appear as values of the
`datatype2sctype` dictionary. -/
inductive SCType where
  | uint8 | int16 | int32 | float32 | complex64 | float64
  | int8 | uint16 | uint32 | int64 | uint64 | complex128
deriving DecidableEq, Repr

/-- The `datatype2sctype` dictionary: lookup of an on-disk datatype code.
A code absent from the dictionary (a Python `KeyError`) is `none`. -/
def datatype2sctype (code : Nat) : Option SCType :=
  match code with
  | 2 => some .uint8
  | 4 => some .int16
  | 8 => some .int32
  | 16 => some .float32
  | 32 => some .complex64
  | 64 => some .float64
  | 256 => some .int8
  | 512 => some .uint16
  | 768 => some .uint32
  | 1024 => some .int64
  | 1280 => some .uint64
  | 1792 => some .complex128
  | _ => none

/-- The inverted dictionary `sctype2datatype`, built in the source by
inverting `datatype2sctype` pair by pair. -/
def sctype2datatype (s : SCType) : Nat :=
  match s with
  | .uint8 => 2
  | .int16 => 4
  | .int32 => 8
  | .float32 => 16
  | .complex64 => 32
  | .float64 => 64
  | .int8 => 256
  | .uint16 => 512
  | .uint32 => 768
  | .int64 => 1024
  | .uint64 => 1280
  | .complex128 => 1792

/-- Membership in `N.sctypes` unsigned-integer class, used by `prewrite`'s
`self.dtype in N.sctypes` test on the uint entry. -/
def isUnsigned (s : SCType) : Bool :=
  match s with
  | .uint8 | .uint16 | .uint32 | .uint64 => true
  | _ => false

/-! ## Header schema (`struct_formats`, `HEADER_SIZE`) -/

def HEADER_SIZE : Nat := 348

/-- The ordered field catalogue `struct_formats`: pairs of field name and
Python `struct` format string, in on-disk order. -/
def struct_formats : List (String × String) :=
  [ ("sizeof_hdr", "i"),
    ("data_type", "10s"),
    ("db_name", "18s"),
    ("extents", "i"),
    ("session_error", "h"),
    ("regular", "c"),
    ("dim_info", "B"),
    ("dim", "8h"),
    ("intent_p1", "f"),
    ("intent_p2", "f"),
    ("intent_p3", "f"),
    ("intent_code", "h"),
    ("datatype", "h"),
    ("bitpix", "h"),
    ("slice_start", "h"),
    ("pixdim", "8f"),
    ("vox_offset", "f"),
    ("scl_slope", "f"),
    ("scl_inter", "f"),
    ("slice_end", "h"),
    ("slice_code", "B"),
    ("xyzt_units", "B"),
    ("cal_max", "f"),
    ("cal_min", "f"),
    ("slice_duration", "f"),
    ("toffset", "f"),
    ("glmax", "i"),
    ("glmin", "i"),
    ("descrip", "80s"),
    ("aux_file", "24s"),
    ("qform_code", "h"),
    ("sform_code", "h"),
    ("quatern_b", "f"),
    ("quatern_c", "f"),
    ("quatern_d", "f"),
    ("qoffset_x", "f"),
    ("qoffset_y", "f"),
    ("qoffset_z", "f"),
    ("srow_x", "4f"),
    ("srow_y", "4f"),
    ("srow_z", "4f"),
    ("intent_name", "16s"),
    ("magic", "4s"),
    ("qfac", "f") ]

/-- Byte width of one Python `struct` format character, per the `struct`
module's standard sizes for the characters used in `struct_formats`. -/
def structCharSize (c : Char) : Nat :=
  if c = 'i' then 4
  else if c = 'h' then 2
  else if c = 'c' then 1
  else if c = 'B' then 1
  else if c = 'f' then 4
  else if c = 's' then 1
  else 0

/-- Numeric value of a digit prefix of a `struct` format string. -/
def digitsVal (cs : List Char) : Nat :=
  cs.foldl (fun acc c => acc * 10 + (c.toNat - 48)) 0

/-- Declared byte width of a whole `struct` format string such as
`"8h"` or `"10s"`: repeat count (default 1) times the character size. -/
def formatWidth (fmt : String) : Nat :=
  match fmt.toList.getLast? with
  | none => 0
  | some c =>
    let pre := fmt.toList.dropLast
    (if pre = [] then 1 else digitsVal pre) * structCharSize c

/-- Total of the declared widths of all schema entries, in order. -/
def structFormatsTotalWidth : Nat :=
  (struct_formats.map (fun p => formatWidth p.2)).sum

/-! ## Header record and the geometry resolver (`Nifti1.transform`) -/

/-- The header fields consulted by `Nifti1.transform` and by the
magic/datatype checks of `Nifti1.__init__`. -/
structure Header where
  pixdim : Fin 8 → ℚ
  qform_code : Int
  sform_code : Int
  quatern_b : ℚ
  quatern_c : ℚ
  quatern_d : ℚ
  qoffset_x : ℚ
  qoffset_y : ℚ
  qoffset_z : ℚ
  srow_x : Fin 4 → ℚ
  srow_y : Fin 4 → ℚ
  srow_z : Fin 4 → ℚ
  magic : String
  datatype : Nat

/-- A 4x4 matrix of rationals. -/
def Mat4 := Fin 4 → Fin 4 → ℚ

instance : DecidableEq Mat4 := by
  unfold Mat4; infer_instance

instance {ε α : Type} [DecidableEq ε] [DecidableEq α] :
    DecidableEq (Except ε α) := fun a b =>
  match a, b with
  | .error e, .error f =>
    if h : e = f then .isTrue (by rw [h])
    else .isFalse (fun hc => h (Except.error.inj hc))
  | .ok x, .ok y =>
    if h : x = y then .isTrue (by rw [h])
    else .isFalse (fun hc => h (Except.ok.inj hc))
  | .error _, .ok _ => .isFalse (fun hc => Except.noConfusion hc)
  | .ok _, .error _ => .isFalse (fun hc => Except.noConfusion hc)

/-- The argument tuple the source passes to `nifti1_ext.quatern2mat`. -/
structure Q2MArgs where
  b : ℚ
  c : ℚ
  d : ℚ
  qx : ℚ
  qy : ℚ
  qz : ℚ
  dx : ℚ
  dy : ℚ
  dz : ℚ
  qfac : ℚ
deriving DecidableEq

/-- The arguments `Nifti1.transform` feeds to `quatern2mat`: the three
quaternion components, the three offsets, `pixdim[1..3]` and `qfac`. -/
def qargs (h : Header) : Q2MArgs :=
  { b := h.quatern_b, c := h.quatern_c, d := h.quatern_d,
    qx := h.qoffset_x, qy := h.qoffset_y, qz := h.qoffset_z,
    dx := h.pixdim 1, dy := h.pixdim 2, dz := h.pixdim 3,
    qfac := h.pixdim 0 }

/-- The matrix assembled on the sform branch: start from
`N.zeros((4,4))` with `value[3,3] = 1.0`, then overwrite rows 0..2 with
`srow_x`, `srow_y`, `srow_z`. -/
def srowMat (h : Header) : Mat4 := fun i j =>
  if i = 0 then h.srow_x j
  else if i = 1 then h.srow_y j
  else if i = 2 then h.srow_z j
  else if j = 3 then 1 else 0

/-- The fallback matrix when neither code is positive: `N.zeros((4,4))`
with only `value[3,3] = 1.0` set. -/
def zeroTransMat : Mat4 := fun i j =>
  if i = 3 ∧ j = 3 then 1 else 0

/-- `Nifti1.transform`: validate `qfac = pixdim[0]` against `[-1., 1.]`,
then select the geometry encoding — quaternion when `qform_code > 0`,
else the srow rows when `sform_code > 0`, else the zero matrix with
bottom-right 1.  The quaternion-to-matrix routine `quatern2mat` lives in
the external `nifti1_ext` number-crunching module (outside this
repository's core, per the spec an excluded collaborator), so the
resolver is parametrised by it. -/
def transform (quatern2mat : Q2MArgs → Mat4) (h : Header) :
    Except String Mat4 :=
  let qfac := h.pixdim 0
  if ¬(qfac = -1 ∨ qfac = 1) then
    .error "invalid qfac: orientation unknown"
  else if h.qform_code > 0 then
    .ok (quatern2mat (qargs h))
  else if h.sform_code > 0 then
    .ok (srowMat h)
  else
    .ok zeroTransMat

/-- The magic-sentinel and datatype-code resolution steps of the
read branch of `Nifti1.__init__`: reject the record unless
`header['magic']` is one of the two sentinels, then resolve
`datatype2sctype[header['datatype']]` (a missing key is a `KeyError`). -/
def initRead (h : Header) : Except String SCType :=
  if ¬(h.magic = "n+1\x00" ∨ h.magic = "ni1\x00") then
    .error "Nifti1FormatError"
  else
    match datatype2sctype h.datatype with
    | some s => .ok s
    | none => .error "KeyError"

/-! ## Rescale engine (`Nifti1.postread` / `Nifti1.prewrite`) -/

/-- The state consulted by `postread` and `prewrite`: the header's
slope/intercept fields, the on-disk element type, the session's
`use_memmap` flag, and the raw on-disk sample block with its shape. -/
structure NiftiState where
  scl_slope : ℚ
  scl_inter : ℚ
  dtype : SCType
  use_memmap : Bool
  data : List ℚ
  dataShape : List Nat

/-- `numpy`-style `.max()` over a sample block (callers never take it on
an empty block; `0` is a junk value for `[]`). -/
def qmax : List ℚ → ℚ
  | [] => 0
  | a :: as => as.foldl max a

/-- `numpy`-style `.min()` over a sample block. -/
def qmin : List ℚ → ℚ
  | [] => 0
  | a :: as => as.foldl min a

/-- Exact rational division, undefined on a zero divisor: the embedding
of an unguarded float division. -/
def divQ (a b : ℚ) : Option ℚ :=
  if b = 0 then none else some (a / b)

/-- Elementwise `(x - inter) / slope` over a sample block, undefined as
soon as one element's division is. -/
def scaleList (inter slope : ℚ) : List ℚ → Option (List ℚ)
  | [] => some []
  | v :: vs =>
    match divQ (v - inter) slope, scaleList inter slope vs with
    | some w, some ws => some (w :: ws)
    | _, _ => none

/-- `Nifti1.postread`: with memory mapping off, samples pass through
unchanged; otherwise a truthy (nonzero) `scl_slope` maps every sample
to `x * scl_slope + scl_inter`, and a zero slope passes through. -/
def postread (st : NiftiState) (x : List ℚ) : List ℚ :=
  if st.use_memmap = false then x
  else if st.scl_slope ≠ 0 then
    x.map (fun v => v * st.scl_slope + st.scl_inter)
  else x

/-- Largest representable value of each on-disk element type (for
floating/complex storage the rescale never needs to shrink, modelled by
a range bound past any integer bound). -/
def typeMaxVal (dt : SCType) : ℚ :=
  match dt with
  | .uint8 => 255
  | .int8 => 127
  | .int16 => 32767
  | .uint16 => 65535
  | .int32 => 2147483647
  | .uint32 => 4294967295
  | .int64 => 9223372036854775807
  | .uint64 => 18446744073709551615
  | .float32 | .complex64 => (2 : ℚ) ^ 128
  | .float64 | .complex128 => (2 : ℚ) ^ 1024

/-- Modelled from the spec: `utils.scale_data` (the scale-selection
routine of the rescale engine; its module `data_io/formats/utils.py` is
not part of this repository snapshot).  It picks the smallest slope such
that the shifted maximum divided by the slope fits the representable
range of the on-disk element type, treating the previous slope as a
floor. -/
def scale_data (x : List ℚ) (dt : SCType) (prevSlope : ℚ) : ℚ :=
  max prevSlope (qmax x / typeMaxVal dt)

/-- The `minval` computed inside `prewrite`'s rescale branch: on a full
replacement `x.min()`, otherwise `min(x.min(), self[:].min())`, where
`self[:]` materializes the existing raw samples through `postread` (the
ancestor engine applies the read-side map on every data access). -/
def candidateMinval (st : NiftiState) (x : List ℚ) (xShape : List Nat) : ℚ :=
  if xShape = st.dataShape then qmin x
  else min (qmin x) (qmin (postread st st.data))

/-- The candidate intercept of `prewrite`'s rescale branch: the minimum
itself for an unsigned on-disk type, else `minval > 0 and minval or 0`. -/
def candidateIntercept (st : NiftiState) (x : List ℚ) (xShape : List Nat) : ℚ :=
  let minval := candidateMinval st x xShape
  if isUnsigned st.dtype then minval
  else if minval > 0 then minval else 0

/-- What a call to `prewrite` produces: the sample block handed to the
writer, the slope/intercept now in the header, and whether the header
was rewritten to storage. -/
structure PrewriteResult where
  out : List ℚ
  scl_slope : ℚ
  scl_inter : ℚ
  rewrote : Bool
deriving DecidableEq, Repr

/-- `Nifti1.prewrite`: with memory mapping off, pass the samples through.
Otherwise compute `scaled_x = (x - scl_inter) / scl_slope` (unguarded
division by the stored slope), and when the incoming shape equals the
on-disk shape or `scaled_x.max()` exceeds the raw on-disk maximum,
compute the candidate intercept and slope; if either differs from the
stored values, update the header fields, rewrite the header, and rescale
`x` under the new pair.  The result is the (re)scaled block. -/
def prewrite (st : NiftiState) (x : List ℚ) (xShape : List Nat) :
    Option PrewriteResult :=
  if st.use_memmap = false then
    some ⟨x, st.scl_slope, st.scl_inter, false⟩
  else
    match scaleList st.scl_inter st.scl_slope x with
    | none => none
    | some scaled_x =>
      if xShape = st.dataShape ∨ qmax scaled_x > qmax st.data then
        let intercept := candidateIntercept st x xShape
        let scale := scale_data (x.map (fun v => v - intercept))
                                st.dtype st.scl_slope
        if scale ≠ st.scl_slope ∨ intercept ≠ st.scl_inter then
          match scaleList intercept scale x with
          | none => none
          | some scaled2 => some ⟨scaled2, scale, intercept, true⟩
        else
          some ⟨scaled_x, st.scl_slope, st.scl_inter, false⟩
      else
        some ⟨scaled_x, st.scl_slope, st.scl_inter, false⟩

/-- The rescale-needed trigger of `prewrite`, in isolation: the exact
condition of the source's `if` on line 463, undefined when the stored
slope is zero (the division producing `scaled_x` is unguarded). -/
def rescaleTrigger (st : NiftiState) (x : List ℚ) (xShape : List Nat) :
    Option Bool :=
  (scaleList st.scl_inter st.scl_slope x).map
    (fun s => decide (xShape = st.dataShape ∨ qmax s > qmax st.data))

/-! ## Concrete instances used in the closed checks -/

/-- The `b = c = d = 0` (identity rotation) instance of the spec's
quaternion-to-matrix formula: `diag(dx, dy, qfac*dz)` with the offsets
as translation.  Used to instantiate the external `quatern2mat`
parameter on concrete inputs. -/
def q2mDiag : Q2MArgs → Mat4 := fun a i j =>
  if i = 0 ∧ j = 0 then a.dx
  else if i = 1 ∧ j = 1 then a.dy
  else if i = 2 ∧ j = 2 then a.qfac * a.dz
  else if j = 3 then
    (if i = 0 then a.qx else if i = 1 then a.qy
     else if i = 2 then a.qz else 1)
  else 0

/-- A header with both `qform_code` and `sform_code` positive, valid
`qfac`, and srow rows that differ from the quaternion-derived matrix. -/
def hBoth : Header :=
  ⟨![1, 2, 2, 2, 0, 0, 0, 0], 1, 2, 0, 0, 0, -64, -64, -40,
    ![7, 7, 7, 7], ![7, 7, 7, 7], ![7, 7, 7, 7], "n+1\x00", 16⟩

/-- A header with `pixdim[0] = 1/2` and the qform path selected. -/
def hBadQfacQ : Header :=
  ⟨![1/2, 2, 2, 2, 0, 0, 0, 0], 1, 0, 0, 0, 0, 0, 0, 0,
    ![0, 0, 0, 0], ![0, 0, 0, 0], ![0, 0, 0, 0], "n+1\x00", 16⟩

/-- A header with `pixdim[0] = 1/2` and the sform path selected. -/
def hBadQfacS : Header :=
  ⟨![1/2, 2, 2, 2, 0, 0, 0, 0], 0, 1, 0, 0, 0, 0, 0, 0,
    ![0, 0, 0, 0], ![0, 0, 0, 0], ![0, 0, 0, 0], "n+1\x00", 16⟩

/-- A header with `pixdim[0] = 1/2` and neither code positive. -/
def hBadQfacN : Header :=
  ⟨![1/2, 2, 2, 2, 0, 0, 0, 0], 0, 0, 0, 0, 0, 0, 0, 0,
    ![0, 0, 0, 0], ![0, 0, 0, 0], ![0, 0, 0, 0], "n+1\x00", 16⟩

/-- A header with neither transform-status code positive. -/
def hNoCode : Header :=
  ⟨![1, 3, 3, 3, 0, 0, 0, 0], 0, 0, 0, 0, 0, 0, 0, 0,
    ![0, 0, 0, 0], ![0, 0, 0, 0], ![0, 0, 0, 0], "n+1\x00", 16⟩

/-- A header that is well-formed except for an unrecognized magic. -/
def hBadMagic : Header :=
  ⟨![1, 1, 1, 1, 0, 0, 0, 0], 0, 0, 0, 0, 0, 0, 0, 0,
    ![0, 0, 0, 0], ![0, 0, 0, 0], ![0, 0, 0, 0], "abcd", 16⟩

/-- A rescale state: identity slope, zero intercept, unsigned on-disk
type, one on-disk sample `0`. -/
def stA : NiftiState := ⟨1, 0, .uint8, true, [0], [1]⟩

/-- Like `stA` but with a signed on-disk element type. -/
def stB : NiftiState := ⟨1, 0, .int16, true, [0], [1]⟩

/-- A rescale state whose stored `scl_slope` is the zero sentinel. -/
def stZeroSlope : NiftiState := ⟨0, 0, .int16, true, [1], [1]⟩

/-- A header with a sentinel magic but the untranslatable RGB datatype
code 128. -/
def hRGB : Header :=
  ⟨![1, 1, 1, 1, 0, 0, 0, 0], 0, 0, 0, 0, 0, 0, 0, 0,
    ![0, 0, 0, 0], ![0, 0, 0, 0], ![0, 0, 0, 0], "n+1\x00", 128⟩

/-! ## Theorems -/

/-- C2 (counterexample): the schema is not 49 entries summing to 348
bytes — `struct_formats` has 44 entries and its declared widths sum to
352 bytes. -/
theorem struct_formats_not_49_entries_348_bytes :
    ¬(struct_formats.length = 49 ∧ structFormatsTotalWidth = 348) := by
  decide

/-- C2 (amended): the header schema is an ordered catalogue fixed at
exactly 44 field entries whose declared binary widths sum to 352 bytes
— 4 bytes more than the fixed 348-byte on-disk header size constant,
because the catalogue appends a trailing 4-byte `qfac` pseudo-field
after `magic`. -/
theorem struct_formats_44_entries_352_bytes :
    struct_formats.length = 44 ∧ structFormatsTotalWidth = 352 ∧
    HEADER_SIZE = 348 ∧ struct_formats.getLast? = some ("qfac", "f") := by
  decide

/-- C3: whenever the stored `pixdim[0]` is neither `-1` nor `1`, the
geometry resolution fails with the invalid-qfac format error, with no
hypothesis on the qform/sform status codes — so the error fires
regardless of which of the three encodings would otherwise be
selected. -/
theorem transform_invalid_qfac (q2m : Q2MArgs → Mat4) (h : Header)
    (h1 : h.pixdim 0 ≠ -1) (h2 : h.pixdim 0 ≠ 1) :
    transform q2m h = .error "invalid qfac: orientation unknown" := by
  unfold transform
  rw [if_pos]
  push_neg
  exact ⟨h1, h2⟩

/-- C3 (witness): `pixdim[0] = 1/2` is rejected on all three selection
paths — qform positive, sform positive, and neither. -/
theorem transform_invalid_qfac_witness :
    transform q2mDiag hBadQfacQ = .error "invalid qfac: orientation unknown" ∧
    transform q2mDiag hBadQfacS = .error "invalid qfac: orientation unknown" ∧
    transform q2mDiag hBadQfacN = .error "invalid qfac: orientation unknown" :=
  ⟨transform_invalid_qfac q2mDiag hBadQfacQ (by norm_num [hBadQfacQ])
      (by norm_num [hBadQfacQ]),
   transform_invalid_qfac q2mDiag hBadQfacS (by norm_num [hBadQfacS])
      (by norm_num [hBadQfacS]),
   transform_invalid_qfac q2mDiag hBadQfacN (by norm_num [hBadQfacN])
      (by norm_num [hBadQfacN])⟩

/-- C4: the read branch accepts a decoded record only when its magic is
one of the two sentinels: any other magic fails with the format error,
and success implies the magic was one of the two. -/
theorem initRead_magic_gate (h : Header) :
    (¬(h.magic = "n+1\x00" ∨ h.magic = "ni1\x00") →
        initRead h = .error "Nifti1FormatError") ∧
    (∀ s, initRead h = .ok s →
        (h.magic = "n+1\x00" ∨ h.magic = "ni1\x00")) := by
  constructor
  · intro hbad
    unfold initRead
    rw [if_pos hbad]
  · intro s hs
    by_cases hm : (h.magic = "n+1\x00" ∨ h.magic = "ni1\x00")
    · exact hm
    · exfalso
      unfold initRead at hs
      rw [if_pos hm] at hs
      exact Except.noConfusion hs

/-- C4 (witness): a record with magic `"abcd"` is rejected, and an
accepted record (here `hBoth`, datatype 16) has a sentinel magic. -/
theorem initRead_magic_gate_witness :
    initRead hBadMagic = .error "Nifti1FormatError" ∧
    (hBoth.magic = "n+1\x00" ∨ hBoth.magic = "ni1\x00") :=
  ⟨(initRead_magic_gate hBadMagic).1 (by decide),
   (initRead_magic_gate hBoth).2 .float32 (by decide)⟩

/-- C7: on read, materialized raw samples are mapped elementwise to
`x * scl_slope + scl_inter`, and the mapping is skipped (the block is
returned unchanged) exactly when the stored slope is zero or the
session's memory mapping is off. -/
theorem postread_characterization (st : NiftiState) (x : List ℚ) :
    postread st x =
      if st.use_memmap = false ∨ st.scl_slope = 0 then x
      else x.map (fun v => v * st.scl_slope + st.scl_inter) := by
  unfold postread
  by_cases hm : st.use_memmap = false
  · simp [hm]
  · by_cases hs : st.scl_slope = 0 <;> simp [hm, hs]

/-- C10: `prewrite` divides by the stored `scl_slope` before any guard,
so it is undefined on every nonempty write when the stored slope is the
zero sentinel — the very value `postread` treats as "no scaling"
(returning the block unchanged). -/
theorem prewrite_unguarded_zero_slope (st : NiftiState) (v : ℚ)
    (vs : List ℚ) (xShape : List Nat)
    (hm : st.use_memmap = true) (h0 : st.scl_slope = 0) :
    prewrite st (v :: vs) xShape = none ∧
    postread st (v :: vs) = v :: vs := by
  constructor
  · unfold prewrite
    rw [hm]
    simp only [Bool.true_eq_false, if_false]
    have hdiv : scaleList st.scl_inter st.scl_slope (v :: vs) = none := by
      unfold scaleList divQ
      rw [h0]
      simp
    rw [hdiv]
  · unfold postread
    rw [hm, h0]
    simp

/-- C10 (witness): with stored slope `0`, writing `[2]` is undefined
while reading `[2]` back is the identity. -/
theorem prewrite_unguarded_zero_slope_witness :
    prewrite stZeroSlope [2] [1] = none ∧
    postread stZeroSlope [2] = [2] :=
  prewrite_unguarded_zero_slope stZeroSlope 2 [] [1] rfl rfl

/-- C9: the element-type code table is two-way for every supported
code; the codes with no in-memory counterpart (RGB 128, 128-bit float
1536, 256-bit complex 2048) and every unrecognized code resolve to
nothing, and resolving such a code during open-for-read fails rather
than producing a value. -/
theorem datatype_table_two_way :
    (∀ c s, datatype2sctype c = some s → sctype2datatype s = c) ∧
    (∀ s, datatype2sctype (sctype2datatype s) = some s) ∧
    (datatype2sctype RGB = none ∧ datatype2sctype FLOAT128 = none ∧
     datatype2sctype COMPLEX256 = none) ∧
    (∀ c, c ∉ [UBYTE, SHORT, INTEGER, FLOAT, COMPLEX, DOUBLE, INT8,
               UINT16, UINT32, INT64, UINT64, COMPLEX128] →
        datatype2sctype c = none) ∧
    (∀ h : Header, (h.magic = "n+1\x00" ∨ h.magic = "ni1\x00") →
        datatype2sctype h.datatype = none →
        initRead h = .error "KeyError") := by
  refine ⟨?_, ?_, ⟨rfl, rfl, rfl⟩, ?_, ?_⟩
  · intro c s hcs
    unfold datatype2sctype at hcs
    split at hcs <;>
      first
        | exact Option.noConfusion hcs
        | (injection hcs with hinj; subst hinj; rfl)
  · intro s
    cases s <;> rfl
  · intro c hc
    unfold datatype2sctype
    split <;> simp_all [UBYTE, SHORT, INTEGER, FLOAT, COMPLEX, DOUBLE,
      INT8, UINT16, UINT32, INT64, UINT64, COMPLEX128]
  · intro h hmagic hnone
    unfold initRead
    rw [if_neg (not_not_intro hmagic), hnone]

/-- C9 (witness): code 16 maps to the 32-bit float type and back, RGB
(128) has no counterpart, and opening a record with datatype 128 fails
rather than producing a value. -/
theorem datatype_table_two_way_witness :
    sctype2datatype .float32 = 16 ∧ datatype2sctype 128 = none ∧
    initRead hRGB = .error "KeyError" := by
  have h := datatype_table_two_way
  exact ⟨h.1 16 .float32 rfl, h.2.2.1.1,
         h.2.2.2.2 hRGB (by decide) rfl⟩

/-- C1: when both status codes are positive (and `qfac` is valid) but
the quaternion-derived and srow-derived matrices differ, the resolver
returns the quaternion-derived matrix, not the srow one — whatever the
external quaternion-to-matrix routine computes. -/
theorem transform_qform_precedence (q2m : Q2MArgs → Mat4) (h : Header)
    (hq : h.qform_code > 0) (_hs : h.sform_code > 0)
    (hqf : h.pixdim 0 = -1 ∨ h.pixdim 0 = 1)
    (hdiff : q2m (qargs h) ≠ srowMat h) :
    transform q2m h = .ok (q2m (qargs h)) ∧
    transform q2m h ≠ .ok (srowMat h) := by
  have ht : transform q2m h = .ok (q2m (qargs h)) := by
    simp only [transform]
    rw [if_neg (not_not_intro hqf), if_pos hq]
  refine ⟨ht, ?_⟩
  rw [ht]
  intro hc
  exact hdiff (Except.ok.inj hc)

/-- C1 (witness): on `hBoth` (both codes positive, srow rows all 7,
spacings 2) the resolver returns the quaternion-derived matrix and not
the srow matrix. -/
theorem transform_qform_precedence_witness :
    transform q2mDiag hBoth = .ok (q2mDiag (qargs hBoth)) ∧
    transform q2mDiag hBoth ≠ .ok (srowMat hBoth) :=
  transform_qform_precedence q2mDiag hBoth (by decide) (by decide)
    (by norm_num [hBoth])
    (by
      intro hc
      have h00 := congrFun (congrFun hc 0) 0
      simp [q2mDiag, srowMat, qargs, hBoth] at h00)

/-- C8: when neither status code is positive (and `qfac` is valid),
the resolver returns the constant matrix with zero translation column,
bottom-right entry 1 and zero 3x3 linear part — in particular nothing
is populated from the pixel spacings. -/
theorem transform_fallback_zero_matrix (q2m : Q2MArgs → Mat4) (h : Header)
    (hq : ¬h.qform_code > 0) (hs : ¬h.sform_code > 0)
    (hqf : h.pixdim 0 = -1 ∨ h.pixdim 0 = 1) :
    transform q2m h = .ok zeroTransMat ∧
    zeroTransMat 3 3 = 1 ∧
    (∀ i j : Fin 4, ¬(i = 3 ∧ j = 3) → zeroTransMat i j = 0) := by
  refine ⟨?_, rfl, ?_⟩
  · simp only [transform]
    rw [if_neg (not_not_intro hqf), if_neg hq, if_neg hs]
  · intro i j hij
    unfold zeroTransMat
    rw [if_neg hij]

/-- Helper: on a memory-mapped session where the division by the
stored slope is defined, `prewrite` reduces to the trigger test over
the rescale branch. -/
theorem prewrite_eq_of_scale (st : NiftiState) (x : List ℚ)
    (xShape : List Nat) (s : List ℚ)
    (hm : st.use_memmap = true)
    (hs : scaleList st.scl_inter st.scl_slope x = some s) :
    prewrite st x xShape =
      if xShape = st.dataShape ∨ qmax s > qmax st.data then
        (if scale_data (x.map (fun v => v - candidateIntercept st x xShape))
              st.dtype st.scl_slope ≠ st.scl_slope ∨
            candidateIntercept st x xShape ≠ st.scl_inter then
          match scaleList (candidateIntercept st x xShape)
              (scale_data (x.map (fun v => v - candidateIntercept st x xShape))
                st.dtype st.scl_slope) x with
          | none => none
          | some scaled2 =>
            some ⟨scaled2,
                  scale_data (x.map (fun v => v - candidateIntercept st x xShape))
                    st.dtype st.scl_slope,
                  candidateIntercept st x xShape, true⟩
        else some ⟨s, st.scl_slope, st.scl_inter, false⟩)
      else some ⟨s, st.scl_slope, st.scl_inter, false⟩ := by
  unfold prewrite
  rw [hm, hs]
  simp only [Bool.true_eq_false, if_false]

/-- C5: with memory mapping on and the stored-slope division defined,
no rewrite and no slope/intercept change happens unless the incoming
shape equals the on-disk shape or the inverse-mapped data's maximum
exceeds the raw on-disk maximum — and whenever the header was
rewritten, that trigger held. -/
theorem prewrite_trigger_characterization (st : NiftiState) (x : List ℚ)
    (xShape : List Nat) (s : List ℚ)
    (hm : st.use_memmap = true)
    (hs : scaleList st.scl_inter st.scl_slope x = some s) :
    (¬(xShape = st.dataShape ∨ qmax s > qmax st.data) →
        prewrite st x xShape =
          some ⟨s, st.scl_slope, st.scl_inter, false⟩) ∧
    (∀ r, prewrite st x xShape = some r → r.rewrote = true →
        (xShape = st.dataShape ∨ qmax s > qmax st.data)) := by
  have hpw := prewrite_eq_of_scale st x xShape s hm hs
  constructor
  · intro hn
    rw [hpw, if_neg hn]
  · intro r hr hrw
    by_cases hcond : xShape = st.dataShape ∨ qmax s > qmax st.data
    · exact hcond
    · rw [hpw, if_neg hcond] at hr
      obtain rfl := Option.some.inj hr
      simp at hrw

/-- C5 (witness): on `stA`, writing the slice `[0]` (shape `[2]`,
on-disk shape `[1]`, maximum not exceeding the recorded one) passes
through: same slope, same intercept, no header rewrite. -/
theorem prewrite_trigger_characterization_witness :
    prewrite stA [0] [2] = some ⟨[0], stA.scl_slope, stA.scl_inter, false⟩ :=
  (prewrite_trigger_characterization stA [0] [2] [0] rfl
      (by norm_num [scaleList, divQ, stA])).1
    (by norm_num [qmax, stA])

/-- C6: whenever the rescale branch is taken, the intercept recorded in
the result is the data minimum (across the new data, and also the
existing mapped data on a partial replacement) when the on-disk type is
unsigned — even a negative minimum — and otherwise that minimum when
positive, else zero. -/
theorem prewrite_rescale_intercept (st : NiftiState) (x : List ℚ)
    (xShape : List Nat) (s : List ℚ) (r : PrewriteResult)
    (hm : st.use_memmap = true)
    (hs : scaleList st.scl_inter st.scl_slope x = some s)
    (htr : xShape = st.dataShape ∨ qmax s > qmax st.data)
    (hr : prewrite st x xShape = some r) :
    r.scl_inter =
      if isUnsigned st.dtype then candidateMinval st x xShape
      else if candidateMinval st x xShape > 0 then
        candidateMinval st x xShape
      else 0 := by
  have hpw := prewrite_eq_of_scale st x xShape s hm hs
  rw [hpw, if_pos htr] at hr
  have hci : candidateIntercept st x xShape =
      if isUnsigned st.dtype then candidateMinval st x xShape
      else if candidateMinval st x xShape > 0 then
        candidateMinval st x xShape
      else 0 := by
    unfold candidateIntercept
    rfl
  by_cases hch : scale_data (x.map (fun v => v - candidateIntercept st x xShape))
        st.dtype st.scl_slope ≠ st.scl_slope ∨
      candidateIntercept st x xShape ≠ st.scl_inter
  · rw [if_pos hch] at hr
    cases hsc2 : scaleList (candidateIntercept st x xShape)
        (scale_data (x.map (fun v => v - candidateIntercept st x xShape))
          st.dtype st.scl_slope) x with
    | none => rw [hsc2] at hr; exact Option.noConfusion hr
    | some s2 =>
      rw [hsc2] at hr
      obtain rfl := Option.some.inj hr
      exact hci
  · rw [if_neg hch] at hr
    obtain rfl := Option.some.inj hr
    rw [not_or, not_ne_iff, not_ne_iff] at hch
    exact hch.2.symm.trans hci

/-- C6 (witness): writing `[-5, 3]` (minimum `-5`) on `stA` (unsigned
on-disk type, partial replacement, existing mapped minimum `0`) records
intercept `-5`; the same write on `stB` (signed type) records `0`. -/
theorem prewrite_rescale_intercept_witness :
    (⟨[0, 8], 1, -5, true⟩ : PrewriteResult).scl_inter =
      candidateMinval stA [-5, 3] [2] ∧
    (⟨[-5, 3], 1, 0, false⟩ : PrewriteResult).scl_inter = 0 := by
  constructor
  · have h := prewrite_rescale_intercept stA [-5, 3] [2] [-5, 3]
      ⟨[0, 8], 1, -5, true⟩ rfl
      (by norm_num [scaleList, divQ, stA])
      (by norm_num [qmax, stA])
      (by norm_num [prewrite, scaleList, divQ, qmax, qmin,
        candidateIntercept, candidateMinval, postread, scale_data,
        typeMaxVal, isUnsigned, stA])
    rw [h]
    simp [stA, isUnsigned]
  · have h := prewrite_rescale_intercept stB [-5, 3] [2] [-5, 3]
      ⟨[-5, 3], 1, 0, false⟩ rfl
      (by norm_num [scaleList, divQ, stB])
      (by norm_num [qmax, stB])
      (by norm_num [prewrite, scaleList, divQ, qmax, qmin,
        candidateIntercept, candidateMinval, postread, scale_data,
        typeMaxVal, isUnsigned, stB])
    rw [h]
    norm_num [stB, isUnsigned, candidateMinval, qmin, postread, stB]

/-- C8 (witness): on `hNoCode` (pixel spacings 3) the fallback matrix
has zero linear entries and translation column and bottom-right 1 —
the spacing value 3 appears nowhere. -/
theorem transform_fallback_zero_matrix_witness :
    transform q2mDiag hNoCode = .ok zeroTransMat ∧
    zeroTransMat 0 0 = 0 ∧ zeroTransMat 0 3 = 0 ∧
    zeroTransMat 3 3 = 1 := by
  have h := transform_fallback_zero_matrix q2mDiag hNoCode (by decide)
    (by decide) (by norm_num [hNoCode])
  exact ⟨h.1, h.2.2 0 0 (by decide), h.2.2 0 3 (by decide), h.2.1⟩

end Nifti1
